import Mathlib

/-!
Verification of the Modbus_Master repository's protocol core.

The Python sources under `src/modbus/` are shallowly embedded below:
bytes become `List Nat` (each element a byte value 0..255 on the domains
the theorems quantify over), Python ints become `Nat`/`Int`, fallible
parsers become `Option`, and the master's `raise` sites become `Except`.
Each definition is a direct translation of the function named in its
doc comment.
-/

namespace Modbus

/-- Big-endian 16-bit pack, `struct.pack('>H', x)` on its valid domain
`x < 65536` (outside it the Python call raises `struct.error`). -/
def pack16 (x : Nat) : List Nat :=
  [x / 256 % 256, x % 256]

/-- Big-endian 16-bit unpack of two bytes, `struct.unpack('>H', ...)`. -/
def parse16 (hi lo : Nat) : Nat :=
  hi * 256 + lo

/-- The parsed MBAP frame object, class `ModbusTCPFrame` of
`src/modbus/modbus_frame.py`. -/
structure ModbusTCPFrame where
  transaction_id : Nat
  protocol_id : Nat
  length : Nat
  unit_id : Nat
  function_code : Nat
  data : List Nat
deriving DecidableEq, Repr

/-- `ModbusTCPFrame.build_request` (modbus_frame.py lines 22-50):
MBAP header `>HHHB` of (transaction_id, 0, 1 + len(pdu), unit_id)
followed by the PDU `function_code :: data`; the length field is
`1 + len(pdu) = 2 + len(data)`. -/
def build_request (transaction_id unit_id function_code : Nat)
    (data : List Nat) : List Nat :=
  pack16 transaction_id ++ pack16 0 ++ pack16 (2 + data.length) ++
    unit_id :: function_code :: data

/-- `ModbusTCPFrame.parse_frame` (modbus_frame.py lines 52-92): requires
at least `7 + 1` bytes, unpacks the `>HHHB` header, rejects a nonzero
protocol identifier, and reads `function_code = frame[7]`,
`data = frame[8:]`. -/
def parse_frame (frame : List Nat) : Option ModbusTCPFrame :=
  if frame.length < 8 then
    none
  else
    let transaction_id := parse16 (frame.getD 0 0) (frame.getD 1 0)
    let protocol_id := parse16 (frame.getD 2 0) (frame.getD 3 0)
    let len := parse16 (frame.getD 4 0) (frame.getD 5 0)
    let unit_id := frame.getD 6 0
    if protocol_id ≠ 0 then
      none
    else
      some ⟨transaction_id, protocol_id, len, unit_id,
            frame.getD 7 0, frame.drop 8⟩

/-- One shift/XOR round of the CRC inner loop (modbus_frame.py lines
253-257): if the low bit is set, shift right and XOR `0xA001`, else
just shift right. -/
def crcRound (crc : Nat) : Nat :=
  if crc &&& 1 = 1 then (crc >>> 1) ^^^ 0xA001 else crc >>> 1

/-- Processing of one byte by `ModbusCRC.calculate_crc`: XOR the byte in
and run eight shift/XOR rounds. -/
def crcByte (crc b : Nat) : Nat :=
  crcRound (crcRound (crcRound (crcRound
    (crcRound (crcRound (crcRound (crcRound (crc ^^^ b))))))))

/-- `ModbusCRC.calculate_crc` (modbus_frame.py lines 247-258): initial
value `0xFFFF`, each data byte XORed in and diffused by eight rounds. -/
def calculate_crc (data : List Nat) : Nat :=
  data.foldl crcByte 0xFFFF

/-- `ModbusCRC.verify_crc` (modbus_frame.py lines 260-264). -/
def verify_crc (data : List Nat) (crc : Nat) : Bool :=
  calculate_crc data == crc

/-- Value of one packed coil byte, LSB first: the source loop
`coil_bytes[i//8] |= 1 << (i%8)` sets, within byte `j`, exactly the bits
`i % 8` of the statuses `i ∈ [8j, 8j+8)` that are true, so byte `j` is
the LSB-first sum over its (at most eight) statuses. -/
def packByte (bits : List Bool) : Nat :=
  bits.foldr (fun b acc => 2 * acc + (if b then 1 else 0)) 0

/-- The packed byte list of `ModbusTCPFrame.build_read_coils_response`
(modbus_frame.py lines 191-201): `(len+7)/8` bytes, byte `j` holding
statuses `8j..8j+7` LSB-first (`bytearray(byte_count)` zero-fills, so a
byte with no true status is 0). -/
def packBits : List Bool → List Nat
  | [] => []
  | b0 :: b1 :: b2 :: b3 :: b4 :: b5 :: b6 :: b7 :: rest =>
      packByte [b0, b1, b2, b3, b4, b5, b6, b7] :: packBits rest
  | l => [packByte l]

/-- `ModbusTCPFrame.build_read_coils_response` (modbus_frame.py lines
182-203): data is `byte_count` followed by the packed coil bytes, framed
with function code `0x01`. -/
def build_read_coils_response (transaction_id unit_id : Nat)
    (coil_status : List Bool) : List Nat :=
  build_request transaction_id unit_id 0x01
    (((coil_status.length + 7) / 8) :: packBits coil_status)

/-- The eight bits of one byte, `bool((byte >> bit) & 1)` for
`bit ∈ range(8)` (modbus_frame.py lines 152-154). -/
def unpackByte (byte : Nat) : List Bool :=
  (List.range 8).map fun bit => (byte >>> bit) &&& 1 == 1

/-- The nested unpacking loops of `parse_read_coils_response`: every byte
contributes its eight bits, LSB first. -/
def unpackBits : List Nat → List Bool
  | [] => []
  | byte :: rest => unpackByte byte ++ unpackBits rest

/-- `ModbusTCPFrame.parse_read_coils_response` (modbus_frame.py lines
134-156): requires function code `0x01` and a nonempty data field, reads
`byte_count = data[0]`, unpacks all bits of `data[1:1+byte_count]`. -/
def parse_read_coils_response (frame : ModbusTCPFrame) : Option (List Bool) :=
  if frame.function_code ≠ 0x01 then none
  else if frame.data.length < 1 then none
  else
    let byte_count := frame.data.getD 0 0
    let coil_bytes := (frame.data.drop 1).take byte_count
    some (unpackBits coil_bytes)

/-- Big-endian register pairs, the loop
`for i in range(0, byte_count, 2): struct.unpack('>H', ...)` on a byte
string that satisfies its declared byte count (a short final slice makes
the source raise `struct.error`, which ends in the callers' generic
failure paths). -/
def parsePairs : List Nat → List Nat
  | hi :: lo :: rest => (hi * 256 + lo) :: parsePairs rest
  | _ => []

/-- `ModbusTCPFrame.parse_read_holding_registers_response`
(modbus_frame.py lines 158-180): requires function code `0x03` and a
nonempty data field, reads `byte_count = data[0]` and the registers from
`data[1:1+byte_count]`. -/
def parse_read_holding_registers_response (frame : ModbusTCPFrame) :
    Option (List Nat) :=
  if frame.function_code ≠ 0x03 then none
  else if frame.data.length < 1 then none
  else
    let byte_count := frame.data.getD 0 0
    some (parsePairs ((frame.data.drop 1).take byte_count))

/-- The big-endian byte pairs of
`ModbusTCPFrame.build_read_holding_registers_response` (one
`struct.pack('>H', value)` per register, valid for values below 2^16). -/
def regsBytes : List Nat → List Nat
  | [] => []
  | v :: rest => (v / 256 % 256) :: (v % 256) :: regsBytes rest

/-- `ModbusTCPFrame.build_read_holding_registers_response`
(modbus_frame.py lines 205-217): data is `2 * len(values)` followed by
the big-endian register bytes, framed with function code `0x03`. -/
def build_read_holding_registers_response (transaction_id unit_id : Nat)
    (register_values : List Nat) : List Nat :=
  build_request transaction_id unit_id 0x03
    ((2 * register_values.length) :: regsBytes register_values)

/-- `ModbusTCPFrame.build_error_response` (modbus_frame.py lines
229-241): function code ORed with `0x80`, data the one exception code
byte. -/
def build_error_response (transaction_id unit_id function_code
    exception_code : Nat) : List Nat :=
  build_request transaction_id unit_id (function_code ||| 0x80)
    [exception_code]

/-- The distinct `raise Exception(...)` sites of the master's response
handling in `TcpMaster.execute` (modbus_tcp.py lines 166-175): frame
parse failure, a Modbus exception PDU (carrying its code byte, or no
code when the data field is empty), and payload decode failure. -/
inductive MasterError where
  | parseFailed
  | modbusException (code : Nat)
  | unknownException
  | decodeFailed
deriving DecidableEq, Repr

/-- Response handling of the `READ_COILS` branch of `TcpMaster.execute`
(modbus_tcp.py lines 161-175), given the raw response bytes delivered by
`_send_receive`: parse the frame (`None` raises), raise on a function
code with bit `0x80`, decode the coils, return the first
`quantity_of_x`. The branch never consults the transaction id it
allocated for the request, nor the `slave` argument, when judging the
response. -/
def tcpExecuteReadCoils (quantity_of_x : Nat) (response : List Nat) :
    Except MasterError (List Bool) :=
  match parse_frame response with
  | none => .error .parseFailed
  | some frame =>
    if frame.function_code &&& 0x80 ≠ 0 then
      match frame.data with
      | [] => .error .unknownException
      | code :: _ => .error (.modbusException code)
    else
      match parse_read_coils_response frame with
      | none => .error .decodeFailed
      | some coils => .ok (coils.take quantity_of_x)

/-- Response handling of the `READ_HOLDING_REGISTERS` branch of
`TcpMaster.execute` (modbus_tcp.py lines 178-192), given the raw
response bytes. -/
def tcpExecuteReadHoldingRegisters (quantity_of_x : Nat)
    (response : List Nat) : Except MasterError (List Nat) :=
  match parse_frame response with
  | none => .error .parseFailed
  | some frame =>
    if frame.function_code &&& 0x80 ≠ 0 then
      match frame.data with
      | [] => .error .unknownException
      | code :: _ => .error (.modbusException code)
    else
      match parse_read_holding_registers_response frame with
      | none => .error .decodeFailed
      | some registers => .ok (registers.take quantity_of_x)

/-- `RtuMaster._parse_response` (modbus_rtu.py lines 82-102): at least 5
bytes, first byte must equal the slave address, the little-endian
trailing CRC must match the CRC of the preceding bytes; yields the
function code and `response[2:-2]`. -/
def rtuParseResponse (response : List Nat) (slave : Nat) :
    Option (Nat × List Nat) :=
  if response.length < 5 then none
  else if response.getD 0 0 ≠ slave then none
  else
    let crc_received :=
      response.getD (response.length - 2) 0 +
        256 * response.getD (response.length - 1) 0
    let crc_calculated := calculate_crc (response.take (response.length - 2))
    if crc_received ≠ crc_calculated then none
    else some (response.getD 1 0, (response.drop 2).take (response.length - 4))

/-- The `READ_HOLDING_REGISTERS` branch of `RtuMaster.execute`
(modbus_rtu.py lines 185-205), given the raw response bytes:
`_send_receive` yields `None` below 5 bytes; every failure path —
including a response whose function code has bit `0x80` (the source
prints the exception and falls through) — reaches the final
`return tuple()`, the empty tuple. -/
def rtuExecuteReadHoldingRegisters (slave quantity_of_x : Nat)
    (response : List Nat) : List Nat :=
  if response.length < 5 then []
  else
    match rtuParseResponse response slave with
    | none => []
    | some (func_code, resp_data) =>
      if func_code &&& 0x80 ≠ 0 then []
      else if 1 ≤ resp_data.length then
        let byte_count := resp_data.getD 0 0
        (parsePairs ((resp_data.drop 1).take byte_count)).take quantity_of_x
      else []

/-- Modelled from the spec: the `defines` module is imported by the
sources but absent from `src/`; per spec §4.2 it fixes the exception
code constants `1 ILLEGAL_FUNCTION, 2 ILLEGAL_DATA_ADDRESS,
3 ILLEGAL_DATA_VALUE, 4 SLAVE_DEVICE_FAILURE`. -/
def ILLEGAL_DATA_VALUE : Nat := 3

/-- Modelled from the spec (§4.2), like `ILLEGAL_DATA_VALUE`. -/
def SLAVE_DEVICE_FAILURE : Nat := 4

/-- The four block-type constants of the missing `defines` module
(`COILS, DISCRETE_INPUTS, HOLDING_REGISTERS, INPUT_REGISTERS`), as an
enumeration: the sources only ever compare them for equality and test
membership in `[COILS, DISCRETE_INPUTS]`. -/
inductive BlockType where
  | coils
  | discreteInputs
  | holdingRegisters
  | inputRegisters
deriving DecidableEq, Repr

/-- The membership test `block_type in [defines.COILS,
defines.DISCRETE_INPUTS]` used throughout `modbus_tcp.py`. -/
def BlockType.isBits : BlockType → Bool
  | .coils | .discreteInputs => true
  | .holdingRegisters | .inputRegisters => false

/-- One element of a `Databank.data` list: Python stores booleans in
coil and discrete-input blocks and integers in register blocks. -/
inductive Cell where
  | bit (b : Bool)
  | reg (v : Nat)
deriving DecidableEq, Repr

/-- Python truthiness of a stored element, as tested by `if status:` in
the packing loops. -/
def Cell.truthy : Cell → Bool
  | .bit b => b
  | .reg v => v != 0

/-- The integer `struct.pack('>H', value)` sees: Python packs `True` as
1 and `False` as 0. -/
def Cell.toNat : Cell → Nat
  | .bit b => if b then 1 else 0
  | .reg v => v

/-- The kind's default element: `False` for coil/discrete-input blocks,
`0` for register blocks (modbus_tcp.py lines 387-390). -/
def cellDefault (block_type : BlockType) : Cell :=
  if block_type.isBits then .bit false else .reg 0

/-- The class `Databank` of modbus_tcp.py (lines 327-391): one data
block. Addresses are `Int` because the source computes
`idx = address - self.starting_address + i` with unbounded Python
integers and then range-checks it. -/
structure Databank where
  block_type : BlockType
  starting_address : Int
  size : Nat
  data : List Cell
deriving DecidableEq, Repr

/-- `Databank.__init__` (modbus_tcp.py lines 333-349): `[False] * size`
for coil kinds, `[0] * size` otherwise. -/
def Databank.init (block_type : BlockType) (starting_address : Int)
    (size : Nat) : Databank :=
  ⟨block_type, starting_address, size,
    List.replicate size
      (if block_type.isBits then Cell.bit false else Cell.reg 0)⟩

/-- The write loop of `Databank.set_values` (modbus_tcp.py lines
362-368): value `i` targets `idx = address - starting_address + i`
(tracked here by advancing `address`); an in-range index stores
`bool(value)` for coil kinds (any nonzero value is truthy) and
`value & 0xFFFF` for register kinds (Python's mask of a possibly
negative int is the nonnegative remainder mod 2^16); an out-of-range
index is skipped. -/
def setCells (block_type : BlockType) (starting_address : Int)
    (size : Nat) : Int → List Int → List Cell → List Cell
  | _, [], data => data
  | address, value :: values, data =>
    let idx := address - starting_address
    let data' :=
      if 0 ≤ idx ∧ idx < (size : Int) then
        data.set idx.toNat
          (if block_type.isBits then Cell.bit (value ≠ 0)
           else Cell.reg (value % 65536).toNat)
      else data
    setCells block_type starting_address size (address + 1) values data'

/-- `Databank.set_values` (modbus_tcp.py lines 351-368). -/
def Databank.set_values (db : Databank) (address : Int)
    (values : List Int) : Databank :=
  { db with
    data := setCells db.block_type db.starting_address db.size address
      values db.data }

/-- The read loop of `Databank.get_values` (modbus_tcp.py lines
381-391): element `i` comes from `idx = address - starting_address + i`
(tracked by advancing `address`), falling back to the kind's default out
of range. -/
def getCells (block_type : BlockType) (starting_address : Int)
    (size : Nat) (data : List Cell) : Int → Nat → List Cell
  | _, 0 => []
  | address, count + 1 =>
    let idx := address - starting_address
    (if 0 ≤ idx ∧ idx < (size : Int) then
       data.getD idx.toNat (cellDefault block_type)
     else cellDefault block_type) ::
      getCells block_type starting_address size data (address + 1) count

/-- `Databank.get_values` (modbus_tcp.py lines 370-391). -/
def Databank.get_values (db : Databank) (address : Int) (count : Nat) :
    List Cell :=
  getCells db.block_type db.starting_address db.size db.data address count

/-- The invariant `Databank.__init__` establishes and writes must keep:
the data vector has exactly `size` elements, booleans in coil kinds and
16-bit integers in register kinds. -/
def cellOK (block_type : BlockType) : Cell → Bool
  | .bit _ => block_type.isBits
  | .reg v => !block_type.isBits && v ≤ 0xFFFF

/-- Decidable form of the block invariant. -/
def Databank.wf (db : Databank) : Bool :=
  db.data.length == db.size && db.data.all (cellOK db.block_type)

/-- The class `Slave` of modbus_tcp.py (lines 394-462): `self.blocks` is
a Python dict from block name to `Databank`, modelled as an
insertion-ordered association list (Python dicts preserve insertion
order, which `_find_block`'s scan observes). -/
structure Slave where
  slave_id : Nat
  blocks : List (String × Databank)
deriving DecidableEq, Repr

/-- Assignment `d[k] = v` on an insertion-ordered dict: replace the
value in place when the key exists, append otherwise. -/
def dictSet : List (String × Databank) → String → Databank →
    List (String × Databank)
  | [], key, v => [(key, v)]
  | (k, w) :: rest, key, v =>
    if k = key then (key, v) :: rest else (k, w) :: dictSet rest key v

/-- Lookup `d.get(k)` / `k in d` on the association list. -/
def dictGet? : List (String × Databank) → String → Option Databank
  | [], _ => none
  | (k, w) :: rest, key => if k = key then some w else dictGet? rest key

/-- `Slave.add_block` (modbus_tcp.py lines 409-419): unconditionally
`self.blocks[block_name] = Databank(block_type, starting_address,
size)`. -/
def Slave.add_block (s : Slave) (block_name : String)
    (block_type : BlockType) (starting_address : Int) (size : Nat) :
    Slave :=
  { s with
    blocks := dictSet s.blocks block_name
      (Databank.init block_type starting_address size) }

/-- `Slave.set_values` (modbus_tcp.py lines 430-433): delegates when the
name is registered, does nothing otherwise. -/
def Slave.set_values (s : Slave) (block_name : String) (address : Int)
    (values : List Int) : Slave :=
  match dictGet? s.blocks block_name with
  | some db =>
    { s with
      blocks := dictSet s.blocks block_name (db.set_values address values) }
  | none => s

/-- `Slave.get_values` (modbus_tcp.py lines 435-439): delegates when the
name is registered, returns the empty list otherwise. -/
def Slave.get_values (s : Slave) (block_name : String) (address : Int)
    (count : Nat) : List Cell :=
  match dictGet? s.blocks block_name with
  | some db => db.get_values address count
  | none => []

/-- `Slave._find_block` (modbus_tcp.py lines 441-447): first block of
the requested type whose range covers the address, in dict order. -/
def findBlock : List (String × Databank) → BlockType → Int →
    Option Databank
  | [], _, _ => none
  | (_, db) :: rest, block_type, address =>
    if db.block_type = block_type ∧ db.starting_address ≤ address ∧
        address < db.starting_address + db.size then
      some db
    else findBlock rest block_type address

/-- `Slave._get_values_by_type` (modbus_tcp.py lines 449-454): read via
the covering block, or `count` defaults when no block covers the
address. -/
def Slave.getValuesByType (s : Slave) (block_type : BlockType)
    (address : Int) (count : Nat) : List Cell :=
  match findBlock s.blocks block_type address with
  | some db => db.get_values address count
  | none => List.replicate count (cellDefault block_type)

/-- `TcpServer._handle_read_coils` (modbus_tcp.py lines 660-669):
`ILLEGAL_DATA_VALUE` when the request data is shorter than 4 bytes,
else read `quantity` coils from `start_addr` and answer with
`build_read_coils_response` — the quantity itself is never
validated. -/
def handleReadCoils (frame : ModbusTCPFrame) (s : Slave) : List Nat :=
  if frame.data.length < 4 then
    build_error_response frame.transaction_id frame.unit_id
      frame.function_code ILLEGAL_DATA_VALUE
  else
    let start_addr := parse16 (frame.data.getD 0 0) (frame.data.getD 1 0)
    let quantity := parse16 (frame.data.getD 2 0) (frame.data.getD 3 0)
    let values := s.getValuesByType .coils start_addr quantity
    build_read_coils_response frame.transaction_id frame.unit_id
      (values.map Cell.truthy)

/-- `TcpServer._handle_read_holding_registers` (modbus_tcp.py lines
693-702): same shape as `handleReadCoils`, answering with
`build_read_holding_registers_response`; the quantity is never
validated. -/
def handleReadHoldingRegisters (frame : ModbusTCPFrame) (s : Slave) :
    List Nat :=
  if frame.data.length < 4 then
    build_error_response frame.transaction_id frame.unit_id
      frame.function_code ILLEGAL_DATA_VALUE
  else
    let start_addr := parse16 (frame.data.getD 0 0) (frame.data.getD 1 0)
    let quantity := parse16 (frame.data.getD 2 0) (frame.data.getD 3 0)
    let values := s.getValuesByType .holdingRegisters start_addr quantity
    build_read_holding_registers_response frame.transaction_id
      frame.unit_id (values.map Cell.toNat)

/-- A slave with one coils block named "a" covering addresses 0..9,
used as a concrete configuration in several examples. -/
def demoSlave : Slave :=
  ⟨1, [("a", Databank.init .coils 0 10)]⟩

/-- The partial-range read example of the spec: a holding-register block
with `start = 10, size = 4` holding `[11, 22, 33, 44]`. -/
def demoHoldingBlock : Databank :=
  ⟨.holdingRegisters, 10, 4, [.reg 11, .reg 22, .reg 33, .reg 44]⟩

/-- A slave carrying `demoHoldingBlock` under the name "h". -/
def demoHoldingSlave : Slave :=
  ⟨1, [("h", demoHoldingBlock)]⟩

/-- A well-formed RTU exception response from slave 1: function code
`0x83` (`0x03 ||| 0x80`), exception code 4, and a matching little-endian
CRC. -/
def rtuExceptionFrame : List Nat :=
  [1, 0x83, 4] ++
    [calculate_crc [1, 0x83, 4] % 256, calculate_crc [1, 0x83, 4] / 256]

/-- Unfolded byte list of `build_request`. -/
theorem build_request_eq (tid u fc : Nat) (d : List Nat) :
    build_request tid u fc d =
      (tid / 256 % 256) :: (tid % 256) :: 0 :: 0 ::
        ((2 + d.length) / 256 % 256) :: ((2 + d.length) % 256) ::
        u :: fc :: d := rfl

/-- Byte 7 of any built frame is its function code. -/
theorem build_request_getD7 (tid u fc : Nat) (d : List Nat) :
    (build_request tid u fc d).getD 7 0 = fc := rfl

/-- Parsing inverts building on the packable domain: the transaction id
is a 16-bit value and the length field `2 + len(data)` fits 16 bits
(outside these `struct.pack('>HHHB', ...)` raises in the source). -/
theorem parse_frame_build_request (tid u fc : Nat) (d : List Nat)
    (h1 : tid < 65536) (h2 : d.length ≤ 65533) :
    parse_frame (build_request tid u fc d) =
      some ⟨tid, 0, 2 + d.length, u, fc, d⟩ := by
  rw [build_request_eq]
  simp only [parse_frame, parse16, List.getD_cons_zero, List.getD_cons_succ,
    List.length_cons, List.drop_succ_cons, List.drop_zero]
  have hlt : ¬ d.length + 1 + 1 + 1 + 1 + 1 + 1 + 1 + 1 < 8 := by omega
  rw [if_neg hlt, if_neg (by omega)]
  have htid : tid / 256 % 256 * 256 + tid % 256 = tid := by omega
  have hlen : (2 + d.length) / 256 % 256 * 256 + (2 + d.length) % 256 =
      2 + d.length := by omega
  rw [htid, hlen]

/-- A nonzero protocol identifier in the header bytes makes `parse_frame`
reject the frame (a frame shorter than 8 bytes is rejected anyway). -/
theorem parse_frame_protocol_ne (frame : List Nat)
    (h : parse16 (frame.getD 2 0) (frame.getD 3 0) ≠ 0) :
    parse_frame frame = none := by
  unfold parse_frame
  split
  · rfl
  · rw [if_pos h]

/-- C3: parse_frame inverts build_request — the parsed frame carries the
built transaction id, protocol 0, length `2 + len(data)`, unit id,
function code and data unchanged — and parse_frame returns none on any
frame whose header protocol identifier is nonzero. -/
theorem C3_frame_roundtrip (tid u fc : Nat) (d : List Nat)
    (h1 : tid < 65536) (h2 : u < 256) (h3 : fc < 256)
    (h4 : d.length ≤ 65533) :
    parse_frame (build_request tid u fc d) =
      some ⟨tid, 0, 2 + d.length, u, fc, d⟩ ∧
    ∀ frame : List Nat, parse16 (frame.getD 2 0) (frame.getD 3 0) ≠ 0 →
      parse_frame frame = none :=
  ⟨parse_frame_build_request tid u fc d h1 h4,
   fun frame h => parse_frame_protocol_ne frame h⟩

/-- C3 witness: the round trip and the protocol check at concrete
inputs. -/
theorem C3_frame_roundtrip_witness :
    (258 < 65536 ∧ 9 < 256 ∧ 3 < 256 ∧ [0, 10].length ≤ 65533) ∧
    parse_frame (build_request 258 9 3 [0, 10]) =
      some ⟨258, 0, 4, 9, 3, [0, 10]⟩ ∧
    parse_frame [0, 1, 0, 7, 0, 2, 1, 3] = none :=
  ⟨by decide,
   (C3_frame_roundtrip 258 9 3 [0, 10] (by decide) (by decide) (by decide)
      (by decide)).1,
   (C3_frame_roundtrip 258 9 3 [0, 10] (by decide) (by decide) (by decide)
      (by decide)).2 [0, 1, 0, 7, 0, 2, 1, 3] (by decide)⟩

/-- C9 counterexample: the CRC of `[0x01, 0x04, 0x02, 0xFF, 0xFF]` is
`0x80B8` (wire bytes `B8 80`), not `0xA880` as the claim states. -/
theorem C9_crc_counterexample :
    calculate_crc [0x01, 0x04, 0x02, 0xFF, 0xFF] ≠ 0xA880 ∧
    calculate_crc [0x01, 0x04, 0x02, 0xFF, 0xFF] = 0x80B8 := by
  constructor
  · decide
  · decide

/-- C9 (amended): the CRC-16 with initial value 0xFFFF and reflected
polynomial 0xA001 maps the example bytes to 0x80B8, and verify_crc
returns true exactly when the computed CRC equals the offered one. -/
theorem C9_crc :
    calculate_crc [0x01, 0x04, 0x02, 0xFF, 0xFF] = 0x80B8 ∧
    ∀ (data : List Nat) (crc : Nat),
      verify_crc data crc = true ↔ calculate_crc data = crc := by
  refine ⟨by decide, fun data crc => ?_⟩
  simp [verify_crc]

/-- C9 witness: verify_crc accepts the example's computed CRC. -/
theorem C9_crc_witness : verify_crc [0x01, 0x04, 0x02, 0xFF, 0xFF] 0x80B8 = true :=
  (C9_crc.2 [0x01, 0x04, 0x02, 0xFF, 0xFF] 0x80B8).mpr C9_crc.1

/-- Looking a key up right after setting it yields the set value. -/
theorem dictGet_dictSet (l : List (String × Databank)) (key : String)
    (v : Databank) : dictGet? (dictSet l key v) key = some v := by
  induction l with
  | nil => simp [dictSet, dictGet?]
  | cons p rest ih =>
    by_cases h : p.1 = key
    · simp [dictSet, dictGet?, h]
    · simp [dictSet, dictGet?, h, ih]

/-- C5 counterexample: add_block succeeds on a range overlapping an
existing coils block of the same slave, and on a range crossing the
16-bit boundary (65535 + 2 > 65536); in both cases the block mapping
changes rather than staying untouched, and no error is signalled. -/
theorem C5_add_block_counterexample :
    (demoSlave.add_block "b" .coils 5 10).blocks ≠ demoSlave.blocks ∧
    dictGet? (demoSlave.add_block "b" .coils 5 10).blocks "b" =
      some (Databank.init .coils 5 10) ∧
    dictGet? (demoSlave.add_block "c" .coils 65535 2).blocks "c" =
      some (Databank.init .coils 65535 2) := by
  refine ⟨by decide, by decide, by decide⟩

/-- C5 (amended): add_block performs no validation at all — for every
slave and every requested range it unconditionally binds the name to a
fresh Databank (replacing a block of the same name, and accepting
overlapping or out-of-space ranges), leaving the slave id unchanged. -/
theorem C5_add_block (s : Slave) (block_name : String)
    (block_type : BlockType) (starting_address : Int) (size : Nat) :
    (s.add_block block_name block_type starting_address size).blocks =
      dictSet s.blocks block_name
        (Databank.init block_type starting_address size) ∧
    dictGet? (s.add_block block_name block_type starting_address size).blocks
      block_name = some (Databank.init block_type starting_address size) ∧
    (s.add_block block_name block_type starting_address size).slave_id =
      s.slave_id :=
  ⟨rfl, dictGet_dictSet s.blocks block_name _, rfl⟩

/-- C10: on a block name that is not registered in the slave, the public
get_values returns the empty list and set_values returns the slave
unchanged; neither raises. -/
theorem C10_missing_block (s : Slave) (block_name : String)
    (address : Int) (count : Nat) (values : List Int)
    (h : dictGet? s.blocks block_name = none) :
    s.get_values block_name address count = [] ∧
    s.set_values block_name address values = s := by
  constructor
  · simp [Slave.get_values, h]
  · simp [Slave.set_values, h]

/-- Results of the two master execute models compare decidably. -/
instance {ε α : Type} [DecidableEq ε] [DecidableEq α] :
    DecidableEq (Except ε α) := fun a b =>
  match a, b with
  | .error e, .error e' =>
    if h : e = e' then .isTrue (by rw [h]) else .isFalse (by simp [h])
  | .ok v, .ok v' =>
    if h : v = v' then .isTrue (by rw [h]) else .isFalse (by simp [h])
  | .error _, .ok _ => .isFalse (by simp)
  | .ok _, .error _ => .isFalse (by simp)

/-- Any frame parse_frame accepts has protocol identifier 0. -/
theorem parse_frame_protocol_eq_zero (response : List Nat)
    (frame : ModbusTCPFrame) (hp : parse_frame response = some frame) :
    frame.protocol_id = 0 := by
  unfold parse_frame at hp
  split at hp
  · exact absurd hp (by simp)
  · simp only at hp
    by_cases hprot : parse16 (response.getD 2 0) (response.getD 3 0) = 0
    · rw [if_neg (not_not_intro hprot)] at hp
      cases hp
      exact hprot
    · rw [if_pos hprot] at hp
      exact absurd hp (by simp)

/-- C1 counterexample: the master allocates transaction id 1 for a
request to slave 2, yet a response frame carrying transaction id 999 and
unit id 7 — both differing from the request — is accepted as the normal
result of the read-coils branch of TcpMaster.execute. -/
theorem C1_correlation_counterexample :
    (parse_frame (build_read_coils_response 999 7 [true])).map
        (fun f => (f.transaction_id, f.unit_id)) = some (999, 7) ∧
    (999 ≠ 1 ∧ 7 ≠ 2) ∧
    tcpExecuteReadCoils 1 (build_read_coils_response 999 7 [true]) =
      .ok [true] := by
  refine ⟨by decide, by decide, by decide⟩

/-- C1 (amended): the read-coils branch of TcpMaster.execute accepts a
response as its normal result whenever the frame parses (which only
requires protocol id 0), its function code has bit 0x80 clear, and the
coil payload decodes — no comparison of the response's transaction id or
unit id with the request's takes place. -/
theorem C1_no_correlation_check (quantity_of_x : Nat) (response : List Nat)
    (frame : ModbusTCPFrame) (coils : List Bool)
    (hp : parse_frame response = some frame)
    (hfc : frame.function_code &&& 0x80 = 0)
    (hd : parse_read_coils_response frame = some coils) :
    tcpExecuteReadCoils quantity_of_x response =
      .ok (coils.take quantity_of_x) ∧
    frame.protocol_id = 0 := by
  refine ⟨?_, parse_frame_protocol_eq_zero response frame hp⟩
  simp [tcpExecuteReadCoils, hp, hfc, hd]

/-- C1 witness: a response built with transaction id 999 and unit id 7
is accepted regardless of which request the master paired it with. -/
theorem C1_no_correlation_check_witness :
    (parse_frame (build_read_coils_response 999 7 [true, true]) =
        some ⟨999, 0, 4, 7, 1, [1, 3]⟩ ∧
      (1 : Nat) &&& 0x80 = 0 ∧
      parse_read_coils_response ⟨999, 0, 4, 7, 1, [1, 3]⟩ =
        some [true, true, false, false, false, false, false, false]) ∧
    tcpExecuteReadCoils 2 (build_read_coils_response 999 7 [true, true]) =
      .ok [true, true] ∧
    (⟨999, 0, 4, 7, 1, [1, 3]⟩ : ModbusTCPFrame).protocol_id = 0 := by
  refine ⟨⟨by decide, by decide, by decide⟩, ?_⟩
  exact C1_no_correlation_check 2 _ ⟨999, 0, 4, 7, 1, [1, 3]⟩
    [true, true, false, false, false, false, false, false]
    (by decide) (by decide) (by decide)

/-- C6 counterexample: a well-formed RTU exception response (function
code 0x83, exception code 4, valid CRC) does not make RtuMaster.execute
fail; the read-holding-registers branch returns the empty tuple as a
normal value, discarding the exception code. -/
theorem C6_exception_counterexample :
    rtuParseResponse rtuExceptionFrame 1 = some (0x83, [4]) ∧
    rtuExecuteReadHoldingRegisters 1 1 rtuExceptionFrame = [] := by
  refine ⟨by decide, by decide⟩

/-- C6 (amended): on a response whose function code has bit 0x80 set,
TcpMaster.execute fails with an error carrying the exception code (the
first data byte), but RtuMaster.execute does not fail — it returns the
empty tuple, discarding the code. -/
theorem C6_exception_paths (quantity_of_x : Nat) (response : List Nat) :
    (∀ (frame : ModbusTCPFrame) (code : Nat) (rest : List Nat),
      parse_frame response = some frame →
      frame.function_code &&& 0x80 ≠ 0 →
      frame.data = code :: rest →
      tcpExecuteReadHoldingRegisters quantity_of_x response =
        .error (.modbusException code)) ∧
    ∀ (slave func_code : Nat) (resp_data : List Nat),
      rtuParseResponse response slave = some (func_code, resp_data) →
      func_code &&& 0x80 ≠ 0 →
      rtuExecuteReadHoldingRegisters slave quantity_of_x response = [] := by
  constructor
  · intro frame code rest hp hfc hdata
    simp [tcpExecuteReadHoldingRegisters, hp, hfc, hdata]
  · intro slave func_code resp_data hp hfc
    have hlen : ¬ response.length < 5 := by
      intro h
      unfold rtuParseResponse at hp
      rw [if_pos h] at hp
      exact absurd hp (by simp)
    simp [rtuExecuteReadHoldingRegisters, hlen, hp, hfc]

/-- C6 witness: the TCP master turns the server's exception PDU
(function code 0x83, code 4) into an error carrying code 4, while the
RTU master returns the empty tuple on the equivalent RTU frame. -/
theorem C6_exception_paths_witness :
    tcpExecuteReadHoldingRegisters 1 (build_error_response 5 1 3 4) =
      .error (.modbusException 4) ∧
    rtuExecuteReadHoldingRegisters 1 1 rtuExceptionFrame = [] := by
  constructor
  · exact (C6_exception_paths 1 (build_error_response 5 1 3 4)).1
      ⟨5, 0, 3, 1, 0x83, [4]⟩ 4 [] (by decide) (by decide) (by decide)
  · exact (C6_exception_paths 1 rtuExceptionFrame).2 1 0x83 [4]
      (by decide) (by decide)

/-- Unpacking one packed byte recovers its (at most eight) statuses,
padded with false bits up to eight. -/
theorem unpackByte_packByte (bits : List Bool) (h : bits.length ≤ 8) :
    unpackByte (packByte bits) =
      bits ++ List.replicate (8 - bits.length) false := by
  rcases bits with _ | ⟨b0, _ | ⟨b1, _ | ⟨b2, _ | ⟨b3, _ | ⟨b4, _ | ⟨b5,
    _ | ⟨b6, _ | ⟨b7, _ | ⟨b8, rest⟩⟩⟩⟩⟩⟩⟩⟩⟩
  · decide
  · cases b0 <;> decide
  · cases b0 <;> cases b1 <;> decide
  · cases b0 <;> cases b1 <;> cases b2 <;> decide
  · cases b0 <;> cases b1 <;> cases b2 <;> cases b3 <;> decide
  · cases b0 <;> cases b1 <;> cases b2 <;> cases b3 <;> cases b4 <;> decide
  · cases b0 <;> cases b1 <;> cases b2 <;> cases b3 <;> cases b4 <;>
      cases b5 <;> decide
  · cases b0 <;> cases b1 <;> cases b2 <;> cases b3 <;> cases b4 <;>
      cases b5 <;> cases b6 <;> decide
  · cases b0 <;> cases b1 <;> cases b2 <;> cases b3 <;> cases b4 <;>
      cases b5 <;> cases b6 <;> cases b7 <;> decide
  · simp only [List.length_cons] at h
    omega

/-- Every byte contributes exactly eight decoded bits. -/
theorem length_unpackBits (bytes : List Nat) :
    (unpackBits bytes).length = 8 * bytes.length := by
  induction bytes with
  | nil => rfl
  | cons b rest ih =>
    simp only [unpackBits, List.length_append, List.length_cons, ih,
      unpackByte, List.length_map, List.length_range]
    omega

/-- The bit-packing law the decoder actually satisfies: unpacking the
packed coil bytes yields the original statuses followed by the padding
false bits that fill the last byte. -/
theorem unpackBits_packBits (L : List Bool) :
    unpackBits (packBits L) =
      L ++ List.replicate (8 * ((L.length + 7) / 8) - L.length) false := by
  induction L using packBits.induct with
  | case1 => decide
  | case2 b0 b1 b2 b3 b4 b5 b6 b7 rest ih =>
    have harith : 8 * ((rest.length + 7) / 8) - rest.length =
        8 * (((b0 :: b1 :: b2 :: b3 :: b4 :: b5 :: b6 :: b7 ::
          rest).length + 7) / 8) -
          (b0 :: b1 :: b2 :: b3 :: b4 :: b5 :: b6 :: b7 ::
            rest).length := by
      simp only [List.length_cons]
      omega
    show unpackByte (packByte [b0, b1, b2, b3, b4, b5, b6, b7]) ++
        unpackBits (packBits rest) = _
    rw [unpackByte_packByte _ (by simp), ih, harith]
    simp
  | case3 l h1 h2 =>
    rcases l with _ | ⟨x0, _ | ⟨x1, _ | ⟨x2, _ | ⟨x3, _ | ⟨x4, _ | ⟨x5,
      _ | ⟨x6, _ | ⟨x7, rest⟩⟩⟩⟩⟩⟩⟩⟩
    · exact absurd rfl h1
    · show unpackByte (packByte [x0]) ++ unpackBits [] = _
      rw [unpackByte_packByte _ (by simp)]
      simp [unpackBits]
    · show unpackByte (packByte [x0, x1]) ++ unpackBits [] = _
      rw [unpackByte_packByte _ (by simp)]
      simp [unpackBits]
    · show unpackByte (packByte [x0, x1, x2]) ++ unpackBits [] = _
      rw [unpackByte_packByte _ (by simp)]
      simp [unpackBits]
    · show unpackByte (packByte [x0, x1, x2, x3]) ++ unpackBits [] = _
      rw [unpackByte_packByte _ (by simp)]
      simp [unpackBits]
    · show unpackByte (packByte [x0, x1, x2, x3, x4]) ++ unpackBits [] = _
      rw [unpackByte_packByte _ (by simp)]
      simp [unpackBits]
    · show unpackByte (packByte [x0, x1, x2, x3, x4, x5]) ++
        unpackBits [] = _
      rw [unpackByte_packByte _ (by simp)]
      simp [unpackBits]
    · show unpackByte (packByte [x0, x1, x2, x3, x4, x5, x6]) ++
        unpackBits [] = _
      rw [unpackByte_packByte _ (by simp)]
      simp [unpackBits]
    · exact absurd rfl (h2 x0 x1 x2 x3 x4 x5 x6 x7 rest)

/-- The packer produces exactly `(len + 7) / 8` bytes. -/
theorem length_packBits (L : List Bool) :
    (packBits L).length = (L.length + 7) / 8 := by
  have h := congrArg List.length (unpackBits_packBits L)
  simp only [length_unpackBits, List.length_append,
    List.length_replicate] at h
  omega

/-- C2 counterexample: decoding the encoding of the one-element coil
list [true] yields eight booleans — the original list padded with seven
trailing false elements — not the list [true] exactly. -/
theorem C2_roundtrip_counterexample :
    (parse_frame (build_read_coils_response 0 1 [true])).bind
        parse_read_coils_response ≠ some [true] ∧
    (parse_frame (build_read_coils_response 0 1 [true])).bind
        parse_read_coils_response =
      some [true, false, false, false, false, false, false, false] := by
  refine ⟨by decide, by decide⟩

/-- C2 (amended): for every coil list L with 1 ≤ |L| ≤ 2000 (and
packable header fields), decoding the encoding of L yields L followed by
the false bits padding the last byte — `(8 - |L| % 8) % 8` of them — so
the first |L| decoded elements are exactly L, but the decoder does not
truncate to the declared quantity (that happens later, in
TcpMaster.execute). -/
theorem C2_coils_roundtrip (tid u : Nat) (L : List Bool)
    (htid : tid < 65536) (hu : u < 256)
    (h1 : 1 ≤ L.length) (h2 : L.length ≤ 2000) :
    (parse_frame (build_read_coils_response tid u L)).bind
        parse_read_coils_response =
      some (L ++ List.replicate (8 * ((L.length + 7) / 8) - L.length)
        false) := by
  rw [build_read_coils_response,
    parse_frame_build_request tid u 0x01 _ htid
      (by
        simp only [List.length_cons, length_packBits]
        omega)]
  show parse_read_coils_response
      ⟨tid, 0, 2 + ((L.length + 7) / 8 :: packBits L).length, u, 0x01,
        (L.length + 7) / 8 :: packBits L⟩ = _
  simp only [parse_read_coils_response, List.getD_cons_zero,
    List.drop_succ_cons, List.drop_zero, List.length_cons]
  rw [if_neg (by decide), if_neg (by omega),
    List.take_of_length_le (le_of_eq (length_packBits L)),
    unpackBits_packBits]

/-- C2 witness: the three-element list round-trips to itself plus five
padding bits. -/
theorem C2_coils_roundtrip_witness :
    (1 ≤ [true, true, false].length ∧ [true, true, false].length ≤ 2000) ∧
    (parse_frame (build_read_coils_response 1 1 [true, true, false])).bind
        parse_read_coils_response =
      some [true, true, false, false, false, false, false, false] :=
  ⟨by decide,
   C2_coils_roundtrip 1 1 [true, true, false] (by decide) (by decide)
     (by decide) (by decide)⟩

/-- The read loop produces exactly `count` elements. -/
theorem length_getCells (block_type : BlockType) (starting_address : Int)
    (size : Nat) (data : List Cell) :
    ∀ (count : Nat) (address : Int),
      (getCells block_type starting_address size data address
        count).length = count := by
  intro count
  induction count with
  | zero => intro address; rfl
  | succ n ih =>
    intro address
    simp only [getCells, List.length_cons, ih]

/-- Element `i` of the read loop's result: the stored element at offset
`address - starting_address + i` when that offset is in `[0, size)`, the
kind's default otherwise. -/
theorem getD_getCells (block_type : BlockType) (starting_address : Int)
    (size : Nat) (data : List Cell) :
    ∀ (count : Nat) (address : Int) (i : Nat), i < count →
      (getCells block_type starting_address size data address count).getD i
          (cellDefault block_type) =
        if 0 ≤ address - starting_address + i ∧
            address - starting_address + i < (size : Int) then
          data.getD (address - starting_address + i).toNat
            (cellDefault block_type)
        else cellDefault block_type := by
  intro count
  induction count with
  | zero => intro address i hi; omega
  | succ n ih =>
    intro address i hi
    cases i with
    | zero =>
      show (if 0 ≤ address - starting_address ∧
          address - starting_address < (size : Int) then
            data.getD (address - starting_address).toNat
              (cellDefault block_type)
          else cellDefault block_type) = _
      norm_num
    | succ j =>
      show (getCells block_type starting_address size data (address + 1)
          n).getD j (cellDefault block_type) = _
      rw [ih (address + 1) j (by omega)]
      have harg : address + 1 - starting_address + (j : Int) =
          address - starting_address + ((j : Nat) + 1 : Nat) := by
        push_cast
        ring
      rw [harg]

/-- C7: Databank.get_values returns exactly `count` elements; element
`i` is the stored element at offset `address - starting_address + i`
when that offset lies in `[0, size)` and the kind's default otherwise. -/
theorem C7_get_values (db : Databank) (address : Int) (count : Nat)
    (h : db.data.length = db.size) :
    (db.get_values address count).length = count ∧
    ∀ i : Nat, i < count →
      (db.get_values address count).getD i (cellDefault db.block_type) =
        if 0 ≤ address - db.starting_address + i ∧
            address - db.starting_address + i < (db.size : Int) then
          db.data.getD (address - db.starting_address + i).toNat
            (cellDefault db.block_type)
        else cellDefault db.block_type :=
  ⟨length_getCells db.block_type db.starting_address db.size db.data
      count address,
   fun i hi => getD_getCells db.block_type db.starting_address db.size
      db.data count address i hi⟩

/-- C7 witness: the spec's partial-range read — a holding block with
start 10, size 4 and values [11, 22, 33, 44], read at address 12 with
count 4, yields [33, 44, 0, 0], the in-range tail then default
zeros — both through Databank.get_values and through the dispatcher's
Slave._get_values_by_type. -/
theorem C7_get_values_witness :
    demoHoldingBlock.data.length = demoHoldingBlock.size ∧
    ((demoHoldingBlock.get_values 12 4).length = 4 ∧
      ∀ i : Nat, i < 4 →
        (demoHoldingBlock.get_values 12 4).getD i
            (cellDefault demoHoldingBlock.block_type) =
          if 0 ≤ 12 - demoHoldingBlock.starting_address + i ∧
              12 - demoHoldingBlock.starting_address + i <
                (demoHoldingBlock.size : Int) then
            demoHoldingBlock.data.getD
              (12 - demoHoldingBlock.starting_address + i).toNat
              (cellDefault demoHoldingBlock.block_type)
          else cellDefault demoHoldingBlock.block_type) ∧
    demoHoldingBlock.get_values 12 4 =
      [Cell.reg 33, Cell.reg 44, Cell.reg 0, Cell.reg 0] ∧
    demoHoldingSlave.getValuesByType .holdingRegisters 12 4 =
      [Cell.reg 33, Cell.reg 44, Cell.reg 0, Cell.reg 0] :=
  ⟨by decide, C7_get_values demoHoldingBlock 12 4 (by decide),
   by decide, by decide⟩

/-- Setting one index leaves every other index's getD unchanged. -/
theorem getD_set_ne {α : Type} (l : List α) (i j : Nat) (a d : α)
    (h : i ≠ j) : (l.set i a).getD j d = l.getD j d := by
  simp only [List.getD_eq_getElem?_getD]
  rw [List.getElem?_set_ne h]

/-- The write loop never changes the data vector's length. -/
theorem length_setCells (block_type : BlockType) (starting_address : Int)
    (size : Nat) :
    ∀ (values : List Int) (address : Int) (data : List Cell),
      (setCells block_type starting_address size address values
        data).length = data.length := by
  intro values
  induction values with
  | nil => intro address data; rfl
  | cons v vs ih =>
    intro address data
    show (setCells block_type starting_address size (address + 1) vs
        _).length = _
    rw [ih]
    split
    · rw [List.length_set]
    · rfl

/-- The cell a single in-range write stores satisfies the kind's
invariant: a boolean for coil kinds, a 16-bit value for register
kinds. -/
theorem cellOK_written (block_type : BlockType) (v : Int) :
    cellOK block_type
      (if block_type.isBits then Cell.bit (v ≠ 0)
       else Cell.reg (v % 65536).toNat) = true := by
  by_cases h : block_type.isBits
  · rw [if_pos h]
    simp [cellOK, h]
  · have hb : block_type.isBits = false := by
      cases hbb : block_type.isBits
      · rfl
      · exact absurd hbb h
    have h1 : 0 ≤ v % 65536 := Int.emod_nonneg v (by norm_num)
    have h2 : v % 65536 < 65536 := Int.emod_lt_of_pos v (by norm_num)
    rw [if_neg h]
    simp only [cellOK, hb, Bool.not_false, Bool.true_and,
      decide_eq_true_eq]
    omega

/-- The write loop keeps every element within the kind's invariant. -/
theorem all_setCells (block_type : BlockType) (starting_address : Int)
    (size : Nat) :
    ∀ (values : List Int) (address : Int) (data : List Cell),
      data.all (cellOK block_type) = true →
      (setCells block_type starting_address size address values
        data).all (cellOK block_type) = true := by
  intro values
  induction values with
  | nil => intro address data h; exact h
  | cons v vs ih =>
    intro address data h
    refine ih (address + 1) _ ?_
    split
    · rw [List.all_eq_true] at h ⊢
      intro x hx
      rcases List.mem_or_eq_of_mem_set hx with hmem | hval
      · exact h x hmem
      · rw [hval]
        exact cellOK_written block_type v
    · exact h

/-- A position outside the written window `[address - starting_address,
address - starting_address + len(values))` keeps its previous value
through the write loop. -/
theorem getD_setCells_outside (block_type : BlockType)
    (starting_address : Int) (size : Nat) :
    ∀ (values : List Int) (address : Int) (data : List Cell) (j : Nat),
      ((j : Int) < address - starting_address ∨
        address - starting_address + values.length ≤ (j : Int)) →
      (setCells block_type starting_address size address values
          data).getD j (cellDefault block_type) =
        data.getD j (cellDefault block_type) := by
  intro values
  induction values with
  | nil => intro address data j _; rfl
  | cons v vs ih =>
    intro address data j hj
    show (setCells block_type starting_address size (address + 1) vs
        _).getD j (cellDefault block_type) = _
    rw [ih (address + 1) _ j (by
      simp only [List.length_cons] at hj
      rcases hj with hlt | hge
      · left; omega
      · right; push_cast at hge ⊢; omega)]
    split
    · next hin =>
      refine getD_set_ne _ _ _ _ _ ?_
      simp only [List.length_cons] at hj
      intro heq
      have htn : ((address - starting_address).toNat : Int) =
          address - starting_address := Int.toNat_of_nonneg hin.1
      rcases hj with hlt | hge
      · omega
      · push_cast at hge
        omega
    · rfl

/-- C8: Databank.set_values preserves the block invariant — the data
vector keeps length `size`, coil kinds hold booleans (any nonzero
written value stored as true) and register kinds hold values masked to
16 bits — it changes no other field, and every position outside the
written window keeps its previous value (in particular a write whose
indexes all fall outside `[0, size)` changes nothing). -/
theorem C8_set_values (db : Databank) (address : Int) (values : List Int)
    (h : db.wf = true) :
    (db.set_values address values).wf = true ∧
    (db.set_values address values).block_type = db.block_type ∧
    (db.set_values address values).starting_address =
      db.starting_address ∧
    (db.set_values address values).size = db.size ∧
    ∀ j : Nat, ((j : Int) < address - db.starting_address ∨
        address - db.starting_address + values.length ≤ (j : Int)) →
      (db.set_values address values).data.getD j
          (cellDefault db.block_type) =
        db.data.getD j (cellDefault db.block_type) := by
  simp only [Databank.wf, Bool.and_eq_true, beq_iff_eq] at h
  refine ⟨?_, rfl, rfl, rfl, ?_⟩
  · simp only [Databank.wf, Databank.set_values, Bool.and_eq_true,
      beq_iff_eq]
    exact ⟨by rw [length_setCells]; exact h.1,
           all_setCells db.block_type db.starting_address db.size values
             address db.data h.2⟩
  · intro j hj
    exact getD_setCells_outside db.block_type db.starting_address db.size
      values address db.data j hj

/-- C8 witness: writing [70000, -1] at address 1 of a 3-register block
keeps the invariant and stores the masked values 4464 and 65535 while
position 0 is untouched. -/
theorem C8_set_values_witness :
    ((⟨.holdingRegisters, 0, 3, [.reg 1, .reg 2, .reg 3]⟩ :
        Databank).wf = true ∧
      ((⟨.holdingRegisters, 0, 3, [.reg 1, .reg 2, .reg 3]⟩ :
          Databank).set_values 1 [70000, -1]).data =
        [.reg 1, .reg 4464, .reg 65535]) ∧
    ((⟨.holdingRegisters, 0, 3, [.reg 1, .reg 2, .reg 3]⟩ :
        Databank).set_values 1 [70000, -1]).wf = true :=
  ⟨⟨by decide, by decide⟩,
   (C8_set_values ⟨.holdingRegisters, 0, 3, [.reg 1, .reg 2, .reg 3]⟩ 1
      [70000, -1] (by decide)).1⟩

set_option maxRecDepth 4000 in
/-- C4 counterexample: a read-coils request with quantity 0 and a
read-holding-registers request with quantity 126 (above the Modbus limit
125) are both answered with a normal response (function-code byte 0x01
resp. 0x03), not with an ILLEGAL_DATA_VALUE exception. -/
theorem C4_quantity_counterexample :
    handleReadCoils ⟨1, 0, 6, 1, 1, [0, 0, 0, 0]⟩ demoSlave ≠
      build_error_response 1 1 1 ILLEGAL_DATA_VALUE ∧
    (handleReadCoils ⟨1, 0, 6, 1, 1, [0, 0, 0, 0]⟩ demoSlave).getD 7 0 =
      0x01 ∧
    handleReadHoldingRegisters ⟨1, 0, 6, 1, 3, [0, 10, 0, 126]⟩
        demoHoldingSlave ≠
      build_error_response 1 1 3 ILLEGAL_DATA_VALUE ∧
    (handleReadHoldingRegisters ⟨1, 0, 6, 1, 3, [0, 10, 0, 126]⟩
        demoHoldingSlave).getD 7 0 = 0x03 := by
  refine ⟨by decide, by decide, by decide, by decide⟩

/-- C4 (amended): the read handlers return an exception response with
code ILLEGAL_DATA_VALUE only when the request data is shorter than 4
bytes; the quantity is never validated — any request whose quantity
stays within the packable domain (byte count at most 255, i.e. quantity
at most 2040 for coils and 127 for registers, which includes quantity 0
and quantities above the Modbus limits 2000 and 125) is answered with
a normal, non-exception response. -/
theorem C4_no_quantity_validation (frame : ModbusTCPFrame) (s : Slave) :
    (frame.data.length < 4 →
      handleReadCoils frame s =
        build_error_response frame.transaction_id frame.unit_id
          frame.function_code ILLEGAL_DATA_VALUE ∧
      handleReadHoldingRegisters frame s =
        build_error_response frame.transaction_id frame.unit_id
          frame.function_code ILLEGAL_DATA_VALUE) ∧
    (4 ≤ frame.data.length →
      parse16 (frame.data.getD 2 0) (frame.data.getD 3 0) ≤ 2040 →
      (handleReadCoils frame s).getD 7 0 = 0x01 ∧
      handleReadCoils frame s ≠
        build_error_response frame.transaction_id frame.unit_id 0x01
          ILLEGAL_DATA_VALUE) ∧
    (4 ≤ frame.data.length →
      parse16 (frame.data.getD 2 0) (frame.data.getD 3 0) ≤ 127 →
      (handleReadHoldingRegisters frame s).getD 7 0 = 0x03 ∧
      handleReadHoldingRegisters frame s ≠
        build_error_response frame.transaction_id frame.unit_id 0x03
          ILLEGAL_DATA_VALUE) := by
  refine ⟨fun h => ?_, fun h hq => ?_, fun h hq => ?_⟩
  · constructor
    · unfold handleReadCoils
      rw [if_pos h]
    · unfold handleReadHoldingRegisters
      rw [if_pos h]
  · have hnc : ¬ frame.data.length < 4 := by omega
    have hL : (handleReadCoils frame s).getD 7 0 = 0x01 := by
      unfold handleReadCoils
      rw [if_neg hnc]
      exact build_request_getD7 _ _ 0x01 _
    refine ⟨hL, fun heq => ?_⟩
    have hR : (build_error_response frame.transaction_id frame.unit_id
        0x01 ILLEGAL_DATA_VALUE).getD 7 0 = 0x01 ||| 0x80 :=
      build_request_getD7 _ _ _ _
    rw [heq, hR] at hL
    exact absurd hL (by decide)
  · have hnc : ¬ frame.data.length < 4 := by omega
    have hL : (handleReadHoldingRegisters frame s).getD 7 0 = 0x03 := by
      unfold handleReadHoldingRegisters
      rw [if_neg hnc]
      exact build_request_getD7 _ _ 0x03 _
    refine ⟨hL, fun heq => ?_⟩
    have hR : (build_error_response frame.transaction_id frame.unit_id
        0x03 ILLEGAL_DATA_VALUE).getD 7 0 = 0x03 ||| 0x80 :=
      build_request_getD7 _ _ _ _
    rw [heq, hR] at hL
    exact absurd hL (by decide)

/-- C4 witness: a 3-byte request body draws the ILLEGAL_DATA_VALUE
exception, while a well-formed request with quantity 0 is answered
normally. -/
theorem C4_no_quantity_validation_witness :
    ((⟨1, 0, 5, 1, 1, [0, 0, 0]⟩ : ModbusTCPFrame).data.length < 4 ∧
      handleReadCoils ⟨1, 0, 5, 1, 1, [0, 0, 0]⟩ demoSlave =
        build_error_response 1 1 1 ILLEGAL_DATA_VALUE) ∧
    (4 ≤ (⟨1, 0, 6, 1, 1, [0, 0, 0, 0]⟩ : ModbusTCPFrame).data.length ∧
      (handleReadCoils ⟨1, 0, 6, 1, 1, [0, 0, 0, 0]⟩ demoSlave).getD 7 0 =
        0x01) :=
  ⟨⟨by decide,
    ((C4_no_quantity_validation ⟨1, 0, 5, 1, 1, [0, 0, 0]⟩
        demoSlave).1 (by decide)).1⟩,
   ⟨by decide,
    ((C4_no_quantity_validation ⟨1, 0, 6, 1, 1, [0, 0, 0, 0]⟩
        demoSlave).2.1 (by decide) (by decide)).1⟩⟩

/-- C10 witness: the name "b" is not registered in the demo slave. -/
theorem C10_missing_block_witness :
    dictGet? demoSlave.blocks "b" = none ∧
    demoSlave.get_values "b" 0 4 = [] ∧
    demoSlave.set_values "b" 0 [1, 2] = demoSlave := by
  refine ⟨by decide, ?_, ?_⟩
  · exact (C10_missing_block demoSlave "b" 0 4 [1, 2] (by decide)).1
  · exact (C10_missing_block demoSlave "b" 0 4 [1, 2] (by decide)).2

end Modbus
